import Mathlib

/-!
# Verification of the OCI-COPILOT agent orchestration engine

Shallow embedding of the routing, planning, execution-sanitisation and
memory components of the OCI-COPILOT repository, together with proofs of
the specification claims about them.

Python strings are modelled as Lean `String`; Python `dict`s whose values
matter are modelled as association lists; Python `None` and other dynamic
values are modelled with the `PVal` type.  ASCII lower-casing and
whitespace stripping model Python's `str.lower` / `str.strip` on the
ASCII texts that occur in this code base.
-/

namespace OciCopilot

/-- Python `str.lower()` (ASCII, which covers every string this code
compares). -/
def pyLower (s : String) : String :=
  ⟨s.data.map Char.toLower⟩

/-- Python `str.strip()`: remove whitespace from both ends. -/
def pyStrip (s : String) : String :=
  ⟨(s.data.dropWhile Char.isWhitespace).reverse.dropWhile Char.isWhitespace |>.reverse⟩

/-- Python's `needle in hay` substring test, on character lists. -/
def containsSub (needle : List Char) : List Char → Bool
  | [] => needle.isEmpty
  | c :: t => needle.isPrefixOf (c :: t) || containsSub needle t

/-- Substring test on strings (`needle in hay` in Python). -/
def strContains (hay needle : String) : Bool :=
  containsSub needle.data hay.data

/-- A dynamic Python value, as far as the planner's parameter checks
inspect one: `None`, a string, an integer or a boolean. -/
inductive PVal where
  | none
  | str (s : String)
  | int (n : Int)
  | bool (b : Bool)
deriving DecidableEq, Repr

/-- Python `str(v)` on the values of `PVal`. -/
def PVal.pyStr : PVal → String
  | .none => "None"
  | .str s => s
  | .int n => toString n
  | .bool b => if b then "True" else "False"

/-- Python truthiness of a `PVal`. -/
def PVal.truthy : PVal → Bool
  | .none => false
  | .str s => s ≠ ""
  | .int n => n ≠ 0
  | .bool b => b

/-- `d.get(k)` on an association-list dict (first binding wins, as keys
are unique in a Python dict). -/
def dictGet : List (String × PVal) → String → Option PVal
  | [], _ => Option.none
  | kv :: rest, k => if kv.1 = k then Option.some kv.2 else dictGet rest k

/-- `d[k] = v` on an association-list dict: replace the binding in place
if the key exists, append otherwise (Python dicts keep insertion
order). -/
def dictSet : List (String × PVal) → String → PVal → List (String × PVal)
  | [], k, v => [(k, v)]
  | kv :: rest, k, v => if kv.1 = k then (k, v) :: rest else kv :: dictSet rest k v

/-- `d.update(e)`: bindings of `e` replace bindings of `d` with the same
key; fresh keys of `e` are appended. -/
def dictUpdate (d : List (String × PVal)) : List (String × PVal) → List (String × PVal)
  | [] => d
  | kv :: rest => dictUpdate (dictSet d kv.1 kv.2) rest

/-! ## `nodes/supervisor.py`: `_is_retryable_error` -/

/-- The non-retryable error substrings of `_is_retryable_error`
(`nodes/supervisor.py`). -/
def non_retryable_patterns : List String :=
  [ "permission denied"
  , "not authorized"
  , "authentication failed"
  , "invalid credentials"
  , "network error"
  , "connection timeout"
  , "service unavailable"
  , "rate limit exceeded"
  , "quota exceeded" ]

/-- The retryable error substrings of `_is_retryable_error`
(`nodes/supervisor.py`). -/
def retryable_patterns : List String :=
  [ "attributeerror"
  , "nameerror"
  , "syntaxerror"
  , "indentationerror"
  , "typeerror"
  , "valueerror"
  , "keyerror"
  , "has no attribute"
  , "is not defined"
  , "invalid syntax" ]

/-- `_is_retryable_error` from `nodes/supervisor.py`: empty messages are
not retryable; any non-retryable substring in the lower-cased message
makes it non-retryable; otherwise the retryable list is scanned and the
default is retryable. -/
def is_retryable_error (error_message : String) : Bool :=
  if error_message = "" then
    false
  else
    let error_lower := pyLower error_message
    if non_retryable_patterns.any (fun p => strContains error_lower p) then
      false
    else if retryable_patterns.any (fun p => strContains error_lower p) then
      true
    else
      true

/-! ## `nodes/supervisor.py`: recursion guard (lines 124-139) -/

/-- The slice of the agent state the supervisor's recursion guard reads:
`recursion_count` and `max_recursion` (`state.get` with defaults 0 and
20). -/
structure GuardState where
  recursion_count : Option Nat
  max_recursion : Option Nat
deriving DecidableEq, Repr

/-- Outcome of the recursion guard: either fall through to the rest of
the supervisor, or return the forced-end presentation payload. -/
inductive GuardOutcome where
  | continue_
  | halt (next_step : String) (summary : String) (format : String)
deriving DecidableEq, Repr

/-- The diagnostic summary of the forced-end return in
`supervisor_node`. -/
def recursionLimitSummary : String :=
  "I've reached the maximum processing limit. Please try a simpler request or restart the conversation."

/-- The recursion guard at the top of `supervisor_node`
(`nodes/supervisor.py` lines 124-139): when `recursion_count ≥
max_recursion` it returns the forced-end payload without touching the
counter; otherwise it increments `state["recursion_count"]` in place and
falls through. -/
def supervisorGuard (s : GuardState) : GuardState × GuardOutcome :=
  let recursion_count := s.recursion_count.getD 0
  let max_recursion := s.max_recursion.getD 20
  if recursion_count ≥ max_recursion then
    (s, .halt "presentation_node" recursionLimitSummary "chat")
  else
    ({ s with recursion_count := Option.some (recursion_count + 1) }, .continue_)

/-! ## `nodes/supervisor.py`: executor-failure branch (lines 387-415) -/

/-- The dict returned by the supervisor's executor-failure branch, with
`Option.none` for keys the branch does not set. -/
structure ExecBranchOut where
  next_step : String
  execution_retries : Option Nat
  feedback : Option String
  error_context : Option String
  execution_error : Option String
deriving DecidableEq, Repr

/-- The retry feedback string built in the executor-failure branch. -/
def executorFeedback (error_message : String) : String :=
  "Your previous code failed during execution: " ++ error_message ++
    ". Please analyze the error and generate corrected code."

/-- The `last_node == "executor"` branch of `supervisor_node`
(`nodes/supervisor.py` lines 387-415).  `retries` is
`state.get("execution_retries", 0)` and `error_message` is
`state.get("execution_error", "")`; `max_retries` is the literal 1. -/
def supervisorExecutorBranch (retries : Nat) (error_message : String) : ExecBranchOut :=
  let max_retries := 1
  let is_retryable := is_retryable_error error_message
  if retries < max_retries ∧ is_retryable then
    { next_step := "codegen"
    , execution_retries := Option.some (retries + 1)
    , feedback := Option.some (executorFeedback error_message)
    , error_context := Option.some "runtime_error"
    , execution_error := Option.none }
  else
    { next_step := "presentation_node"
    , execution_retries := Option.none
    , feedback := Option.none
    , error_context := Option.none
    , execution_error := Option.some error_message }

/-! ## `nodes/supervisor.py`: confirmation-response branch (lines 281-298) -/

/-- The dict returned by the supervisor's confirmation-response branch,
with `Option.none` for keys the branch does not set. -/
structure ConfirmBranchOut where
  next_step : String
  plan : Option (List (String × PVal))
  confirmation_approved : Option Bool
  action_cancelled : Option Bool
  cancellation_reason : Option String
deriving DecidableEq, Repr

/-- The `last_node == "presentation_node" and confirmation_response`
branch of `supervisor_node` (`nodes/supervisor.py` lines 281-298).
`confirmation_response` is lower-cased and stripped, then compared with
the four affirmative words. -/
def supervisorConfirmBranch (confirmation_response : String)
    (pending_plan : Option (List (String × PVal))) : ConfirmBranchOut :=
  let response := pyStrip (pyLower confirmation_response)
  if response ∈ ["yes", "y", "confirm", "proceed"] then
    { next_step := "codegen"
    , plan := pending_plan
    , confirmation_approved := Option.some true
    , action_cancelled := Option.none
    , cancellation_reason := Option.none }
  else
    { next_step := "presentation_node"
    , plan := Option.none
    , confirmation_approved := Option.none
    , action_cancelled := Option.some true
    , cancellation_reason := Option.some "User declined to proceed with the operation" }

/-! ## `nodes/planner.py`: `_get_known_required_parameters` and
`_apply_safety_flags` -/

/-- `s.startswith(pre)`. -/
def pyStartsWith (s pre : String) : Bool :=
  pre.data.isPrefixOf s.data

/-- The prefix tuple of
`action.startswith(('create_', 'delete_', 'update_', 'launch_'))`. -/
def mutatingPrefixes : List String :=
  ["create_", "delete_", "update_", "launch_"]

/-- `_get_known_required_parameters` from `nodes/planner.py`: the fixed
table of required parameters per known destructive action. -/
def knownRequiredParams (action : String) : Option (List String) :=
  if action = "create_vcn" then Option.some ["compartment_id", "cidr_block", "display_name"]
  else if action = "create_subnet" then Option.some ["compartment_id", "vcn_id", "cidr_block"]
  else if action = "create_bucket" then Option.some ["compartment_id", "name"]
  else if action = "create_volume" then Option.some ["compartment_id", "availability_domain", "size_in_gbs"]
  else if action = "launch_instance" then Option.some ["compartment_id", "shape", "image_id", "subnet_id"]
  else if action = "create_compartment" then Option.some ["compartment_id", "name", "description"]
  else if action = "create_group" then Option.some ["compartment_id", "name", "description"]
  else if action = "create_user" then Option.some ["compartment_id", "name", "description"]
  else if action = "delete_bucket" then Option.some ["name"]
  else if action = "create_load_balancer" then Option.some ["compartment_id", "shape_name", "subnet_ids"]
  else Option.none

/-- The per-parameter test of `_apply_safety_flags`:
`param not in params or params.get(param) is None or
str(params.get(param)).strip() == ""`. -/
def paramMissing (params : List (String × PVal)) (param : String) : Bool :=
  match dictGet params param with
  | Option.none => true
  | Option.some v => v = PVal.none || pyStrip v.pyStr = ""

/-- The slice of the planner's `analysis_result` dict that
`_apply_safety_flags` reads: `is_mutating` (`get` default `False`) and
`extracted_parameters` (`get` default `{}`). -/
structure AnalysisResult where
  is_mutating : Bool
  extracted_parameters : List (String × PVal)
deriving DecidableEq, Repr

/-- A single-step plan dict as `_apply_safety_flags` reads and writes
it: `action` is `plan.get('action', '')`, `params` is
`plan.get('params', {})`; `missing_parameters` is `Option.none` when the
key is absent (the function may `pop` it). -/
structure Plan where
  action : String
  params : List (String × PVal)
  missing_parameters : Option (List String)
  requires_confirmation : Option Bool
  safety_tier : Option String
deriving DecidableEq, Repr

/-- `is_mutating` of `_apply_safety_flags`:
`analysis_result.get('is_mutating', False) or
action.startswith(('create_', 'delete_', 'update_', 'launch_'))`. -/
def planIsMutating (action : String) (analysis : AnalysisResult) : Bool :=
  analysis.is_mutating || mutatingPrefixes.any (fun p => pyStartsWith action p)

/-- `_apply_safety_flags` from `nodes/planner.py` (lines 498-572):
merge `extracted_parameters` into the params, set
`requires_confirmation` / `safety_tier` from `is_mutating`, then for
known mutating actions overwrite `missing_parameters` with the
programmatically computed list; for unknown mutating actions keep the
LM's list; for safe actions pop the key. -/
def applySafetyFlags (plan : Plan) (analysis : AnalysisResult) : Plan :=
  let params :=
    if analysis.extracted_parameters.isEmpty then plan.params
    else dictUpdate plan.params analysis.extracted_parameters
  let llm_missing := plan.missing_parameters.getD []
  let is_mutating := planIsMutating plan.action analysis
  let base : Plan :=
    { plan with
      params := params
    , requires_confirmation := Option.some is_mutating
    , safety_tier := Option.some (if is_mutating then "destructive" else "safe") }
  match knownRequiredParams plan.action with
  | Option.some required =>
      if is_mutating then
        { base with
          missing_parameters := Option.some (required.filter (fun p => paramMissing params p)) }
      else
        { base with missing_parameters := Option.none }
  | Option.none =>
      if is_mutating then
        { base with missing_parameters := Option.some llm_missing }
      else
        { base with missing_parameters := Option.none }

/-! ## `nodes/planner.py`: `_enforce_all_compartments` -/

/-- A step dict of a multi-step plan, as `_enforce_all_compartments`
reads it: `action` is the raw value of the `action` key (`Option.none`
when absent), `params` is `Option.none` when absent, `None` or not a
dict (those all collapse to `{}` via `step.get("params") or {}`). -/
structure EStep where
  action : Option PVal
  params : Option (List (String × PVal))
deriving DecidableEq, Repr

/-- A raw plan dict as `_enforce_all_compartments` reads it:
`steps` is `Option.none` when the key is absent or its value is not a
list. -/
structure EPlan where
  action : Option PVal
  params : Option (List (String × PVal))
  steps : Option (List EStep)
deriving DecidableEq, Repr

/-- The guard `isinstance(v, str) and v.lower().startswith("list_")`
applied to the raw `action` value. -/
def isListAction : Option PVal → Bool
  | Option.some (PVal.str s) => pyStartsWith (pyLower s) "list_"
  | _ => false

/-- `params.get("all_compartments", False)` is truthy. -/
def hasAllCompartments (params : Option (List (String × PVal))) : Bool :=
  ((dictGet (params.getD []) "all_compartments").getD (PVal.bool false)).truthy

/-- The body of the step loop in `_enforce_all_compartments`: for a
`list_` step, normalise its params to a dict and force
`all_compartments` to `True` when it is not already truthy. -/
def enforceStep (st : EStep) : EStep :=
  if isListAction st.action then
    let sparams := st.params.getD []
    if ((dictGet sparams "all_compartments").getD (PVal.bool false)).truthy then
      { st with params := Option.some sparams }
    else
      { st with params := Option.some (dictSet sparams "all_compartments" (PVal.bool true)) }
  else st

/-- `_enforce_all_compartments` from `nodes/planner.py` (lines 361-380).
Note the `elif`: the step loop runs only when the top-level `action` is
not itself a `list_`-prefixed string. -/
def enforceAllCompartments (p : EPlan) : EPlan :=
  if isListAction p.action then
    let params := p.params.getD []
    if ((dictGet params "all_compartments").getD (PVal.bool false)).truthy then
      { p with params := Option.some params }
    else
      { p with params := Option.some (dictSet params "all_compartments" (PVal.bool true)) }
  else if p.steps.isSome then
    { p with steps := Option.some ((p.steps.getD []).map enforceStep) }
  else p

/-! ## `nodes/executor.py`: `_sanitize_results` -/

/-- Outcome of `oci.util.to_dict` on an SDK object: the converted
attribute map, or the text of the exception it raised. -/
inductive ToDictResult where
  | ok (d : List (String × PVal))
  | raised (msg : String)
deriving DecidableEq, Repr

/-- A runtime value as `_sanitize_results` classifies it:
`pdict` is a Python dict (`isinstance(item, dict)`);
`sdk` is an object with `__dict__` and no `keys` method, carrying the
outcome of `oci.util.to_dict` on it plus its type name and `str()`
form; `prim` is any other value, with its type name and `str()`
form. -/
inductive PyAny where
  | pdict (entries : List (String × PVal))
  | sdk (typeName : String) (conv : ToDictResult) (strRepr : String)
  | prim (typeName : String) (strRepr : String)
deriving DecidableEq, Repr

/-- Whether a `PyAny` is a Python dict (an attribute map). -/
def PyAny.isDict : PyAny → Bool
  | .pdict _ => true
  | _ => false

/-- The per-item body of `_sanitize_results` (`nodes/executor.py` lines
142-183): SDK objects go through `to_dict` (falling back to the error
dict when it raises), dicts pass through, anything else becomes a
`{value, type}` dict. -/
def sanitizeItem : PyAny → PyAny
  | .sdk _ (ToDictResult.ok d) _ => .pdict d
  | .sdk ty (ToDictResult.raised msg) r =>
      .pdict [ ("error", PVal.str ("Failed to sanitize item: " ++ msg))
             , ("original_type", PVal.str ty)
             , ("value", PVal.str r) ]
  | .pdict d => .pdict d
  | .prim ty r => .pdict [("value", PVal.str r), ("type", PVal.str ty)]

/-- `_sanitize_results` from `nodes/executor.py`: sanitise every item of
the (already list-normalised) execution result. -/
def sanitizeResults (results : List PyAny) : List PyAny :=
  results.map sanitizeItem

/-! ## `nodes/rag_retriever.py`: `rag_retriever_node` -/

/-- A retrieved document: either a Python string or some non-string
value (the node's `isinstance(doc, str)` test). -/
inductive Doc where
  | str (s : String)
  | other
deriving DecidableEq, Repr

/-- The dict returned by `rag.retriever.retrieve(state)`, as the node
reads it (`results.get(..., [])`, so list fields are `Option`s). -/
structure RetrieveResults where
  rag_found : Bool
  rag_result : Option (List Doc)
  rag_metadata : Option (List PVal)
deriving DecidableEq, Repr

/-- The slice of the agent state `rag_retriever_node` reads. -/
structure RagState where
  normalized_query : Option String
  user_input : Option String
deriving DecidableEq, Repr

/-- The dict returned by `rag_retriever_node`, with `Option.none` for
keys the branch does not set. -/
structure RagNodeOut where
  next_step : String
  execution_strategy : String
  execution_result : Option (List Doc × List PVal)
  rag_fallback : Option Bool
  normalized_query : Option String
  rag_found : Bool
  last_node : String
deriving DecidableEq, Repr

/-- The node's hit test: `rag_found and len(rag_result) > 0 and
any(doc.strip() for doc in rag_result if isinstance(doc, str))`. -/
def ragHasData (rag_found : Bool) (rag_result : List Doc) : Bool :=
  rag_found && !rag_result.isEmpty &&
    rag_result.any (fun d => match d with
      | Doc.str s => pyStrip s ≠ ""
      | Doc.other => false)

/-- `rag_retriever_node` from `nodes/rag_retriever.py` (the call to
`retrieve(state)` is the node's input `results`).  On a hit it routes
to presentation with `execution_strategy="rag_chain"` and
`execution_result={data, metadatas}`; on a miss it routes to the
planner with `execution_strategy="rag_fallback_to_planner"` and
preserves `normalized_query` (falling back to `user_input`). -/
def ragRetrieverNode (results : RetrieveResults) (state : RagState) : RagNodeOut :=
  let rag_found := results.rag_found
  let rag_result := if rag_found then results.rag_result.getD [] else []
  let rag_metadata := if rag_found then results.rag_metadata.getD [] else []
  if ragHasData rag_found rag_result then
    { next_step := "presentation_node"
    , execution_strategy := "rag_chain"
    , execution_result := Option.some (rag_result, rag_metadata)
    , rag_fallback := Option.none
    , normalized_query := Option.none
    , rag_found := rag_found
    , last_node := "rag_retriever" }
  else
    { next_step := "planner"
    , execution_strategy := "rag_fallback_to_planner"
    , execution_result := Option.none
    , rag_fallback := Option.some true
    , normalized_query :=
        Option.some (state.normalized_query.getD (state.user_input.getD ""))
    , rag_found := rag_found
    , last_node := "rag_retriever" }

/-! ## `core/memory/store.py`: `save_short_term` / `save_long_term` -/

/-- File-system operations a save can perform.  `openTrunc` is
`open(path, 'w')` (truncates the file), `writeAll` is the stream of
`json.dump` writes, `renameFile` is `os.rename` (never emitted by this
code, present so "no rename happens" is expressible). -/
inductive FsOp where
  | openTrunc (path : String)
  | writeAll (path : String) (content : String)
  | closeFile (path : String)
  | renameFile (src dst : String)
deriving DecidableEq, Repr

/-- Whether an operation is a rename. -/
def FsOp.isRename : FsOp → Bool
  | .renameFile _ _ => true
  | _ => false

/-- Effect of one operation on the file system (paths to contents). -/
def applyFsOp (fs : String → String) : FsOp → (String → String)
  | .openTrunc p => fun q => if q = p then "" else fs q
  | .writeAll p c => fun q => if q = p then fs p ++ c else fs q
  | .closeFile _ => fs
  | .renameFile src dst =>
      fun q => if q = dst then fs src else if q = src then "" else fs q

/-- Run a list of operations on the file system. -/
def runFs (fs : String → String) : List FsOp → (String → String)
  | [] => fs
  | op :: rest => runFs (applyFsOp fs op) rest

/-- The operation trace of `MemoryStore.save_short_term`
(`core/memory/store.py` lines 23-32, default `memory_dir`):
`open(file_path, 'w')` then `json.dump(data, f, ...)` then close —
no temporary file and no rename.  `serialized` is the JSON text
`json.dump` produces for `data`. -/
def save_short_term_trace (serialized : String) : List FsOp :=
  [ FsOp.openTrunc "memory/short_term.json"
  , FsOp.writeAll "memory/short_term.json" serialized
  , FsOp.closeFile "memory/short_term.json" ]

/-- The operation trace of `MemoryStore.save_long_term`
(`core/memory/store.py` lines 46-55). -/
def save_long_term_trace (serialized : String) : List FsOp :=
  [ FsOp.openTrunc "memory/long_term.json"
  , FsOp.writeAll "memory/long_term.json" serialized
  , FsOp.closeFile "memory/long_term.json" ]

/-! ## `core/memory/long_term.py`: `learn_from_pattern` and
`_patterns_similar` -/

/-- One entry of `self.learning_patterns[pattern_type]`. -/
structure PatternEntry where
  data : List (String × PVal)
  timestamp : String
  frequency : Nat
  last_seen : Option String
deriving DecidableEq, Repr

/-- `_patterns_similar` from `core/memory/long_term.py` (lines
136-149): no common keys means not similar; otherwise the fraction of
common keys with equal values must exceed 0.7.  The float comparison
`score / len(common) > 0.7` is modelled exactly by
`10 * score > 7 * len(common)` (the quotients realisable here are never
within a double ulp of 0.7 without being exactly 7/10). -/
def patternsSimilar (p1 p2 : List (String × PVal)) : Bool :=
  let common := ((p1.map Prod.fst).dedup).filter (fun k => k ∈ p2.map Prod.fst)
  if common.isEmpty then false
  else
    let score := (common.filter (fun k => dictGet p1 k = dictGet p2 k)).length
    10 * score > 7 * common.length

/-- `learn_from_pattern` from `core/memory/long_term.py` (lines 45-64),
acting on `self.learning_patterns[pattern_type]` (already defaulted to
`[]`): the first similar entry gets its `frequency` incremented and
`last_seen` set to `now`; if none is similar a fresh entry with
`frequency` 1 is appended. -/
def learnFromPattern (d : List (String × PVal)) (now : String) :
    List PatternEntry → List PatternEntry
  | [] => [⟨d, now, 1, Option.none⟩]
  | e :: rest =>
      if patternsSimilar e.data d then
        { e with frequency := e.frequency + 1, last_seen := Option.some now } :: rest
      else
        e :: learnFromPattern d now rest

/-! ## Helper lemmas -/

theorem containsSub_of_isPrefixOf (n hay : List Char) (h : n.isPrefixOf hay = true) :
    containsSub n hay = true := by
  cases hay with
  | nil =>
    cases n with
    | nil => rfl
    | cons c t => simp [List.isPrefixOf] at h
  | cons c t => simp [containsSub, h]

theorem containsSub_append_middle (n : List Char) :
    ∀ pre suf : List Char, containsSub n (pre ++ (n ++ suf)) = true := by
  intro pre
  induction pre with
  | nil =>
    intro suf
    exact containsSub_of_isPrefixOf n (n ++ suf)
      (List.isPrefixOf_iff_prefix.mpr (List.prefix_append n suf))
  | cons c pre ih =>
    intro suf
    simp [containsSub, ih suf]

theorem dictGet_dictSet_self (k : String) (v : PVal) :
    ∀ d : List (String × PVal), dictGet (dictSet d k v) k = Option.some v := by
  intro d
  induction d with
  | nil => simp [dictSet, dictGet]
  | cons kv rest ih =>
    by_cases h : kv.1 = k
    · simp [dictSet, dictGet, h]
    · simp [dictSet, dictGet, h, ih]

theorem enforceStep_action (st : EStep) : (enforceStep st).action = st.action := by
  unfold enforceStep
  by_cases h : isListAction st.action = true
  · rw [if_pos h]
    by_cases ht : ((dictGet (st.params.getD []) "all_compartments").getD (PVal.bool false)).truthy = true
    · simp only [ht, if_pos]
    · simp only [ht, if_neg, Bool.false_eq_true, not_false_eq_true]
  · rw [if_neg h]

theorem enforceStep_flag (st : EStep) (h : isListAction st.action = true) :
    hasAllCompartments (enforceStep st).params = true := by
  unfold enforceStep
  rw [if_pos h]
  by_cases ht : ((dictGet (st.params.getD []) "all_compartments").getD (PVal.bool false)).truthy = true
  · simp only [ht, if_pos]
    simpa [hasAllCompartments] using ht
  · simp only [ht, Bool.false_eq_true, not_false_eq_true, if_neg]
    simp [hasAllCompartments, dictGet_dictSet_self, PVal.truthy]

theorem recursionSummary_contains :
    strContains recursionLimitSummary "maximum processing limit" = true := by decide

/-! ## Claim theorems -/

/-- C10: `_is_retryable_error` returns true exactly when the error
message is non-empty and its lower-cased form contains none of the nine
non-retryable substrings; in particular a message matching both lists is
non-retryable, an unknown message defaults to retryable, and the
retryable-pattern list never changes the result (it does not appear on
the right-hand side). -/
theorem is_retryable_error_characterization (e : String) :
    is_retryable_error e = true ↔
      (e ≠ "" ∧ ∀ p ∈ non_retryable_patterns, strContains (pyLower e) p = false) := by
  by_cases h : e = ""
  · simp [is_retryable_error, h]
  · by_cases hn : (non_retryable_patterns.any fun p => strContains (pyLower e) p) = true
    · simp only [is_retryable_error, if_neg h, hn, if_pos]
      constructor
      · intro hf
        exact absurd hf (by simp)
      · rintro ⟨-, hall⟩
        rw [List.any_eq_true] at hn
        obtain ⟨p, hp, hc⟩ := hn
        rw [hall p hp] at hc
        cases hc
    · simp only [is_retryable_error, if_neg h, hn, Bool.false_eq_true, not_false_eq_true,
        if_neg, ite_self]
      constructor
      · intro _
        refine ⟨h, fun p hp => ?_⟩
        by_contra hcp
        exact hn (List.any_eq_true.mpr ⟨p, hp, by simpa using hcp⟩)
      · intro _
        trivial

/-- C3: on an executor failure, a retryable error with
`execution_retries < 1` routes back to codegen with the retry counter
incremented and the error text embedded in the feedback; any other case
(non-retryable error or exhausted budget) routes to presentation
carrying the error, and any state with `execution_retries ≥ 1` always
surfaces — so at most one executor retry occurs per turn. -/
theorem supervisorExecutorBranch_retry_policy (retries : Nat) (error_message : String)
    (_hne : error_message ≠ "") :
    ((is_retryable_error error_message = true ∧ retries < 1) →
      supervisorExecutorBranch retries error_message =
        { next_step := "codegen"
        , execution_retries := Option.some (retries + 1)
        , feedback := Option.some (executorFeedback error_message)
        , error_context := Option.some "runtime_error"
        , execution_error := Option.none })
  ∧ ((is_retryable_error error_message = false ∨ 1 ≤ retries) →
      supervisorExecutorBranch retries error_message =
        { next_step := "presentation_node"
        , execution_retries := Option.none
        , feedback := Option.none
        , error_context := Option.none
        , execution_error := Option.some error_message })
  ∧ (∀ r, 1 ≤ r →
      (supervisorExecutorBranch r error_message).next_step = "presentation_node")
  ∧ strContains (executorFeedback error_message) error_message = true := by
  refine ⟨?_, ?_, ?_, ?_⟩
  · rintro ⟨hr, hlt⟩
    simp [supervisorExecutorBranch, hr, hlt]
  · rintro (hr | hge)
    · simp [supervisorExecutorBranch, hr]
    · simp [supervisorExecutorBranch, Nat.not_lt.mpr hge]
  · intro r hr
    simp [supervisorExecutorBranch, Nat.not_lt.mpr hr]
  · show containsSub error_message.data (executorFeedback error_message).data = true
    have hdata : (executorFeedback error_message).data =
        "Your previous code failed during execution: ".data ++
          (error_message.data ++ ". Please analyze the error and generate corrected code.".data) := by
      simp [executorFeedback, String.data_append]
    rw [hdata]
    exact containsSub_append_middle _ _ _

/-- Witness for C3 at a concrete retryable error and a fresh retry
budget. -/
theorem supervisorExecutorBranch_retry_policy_witness :
    supervisorExecutorBranch 0 "KeyError: missing_param" =
      { next_step := "codegen"
      , execution_retries := Option.some 1
      , feedback := Option.some (executorFeedback "KeyError: missing_param")
      , error_context := Option.some "runtime_error"
      , execution_error := Option.none } :=
  (supervisorExecutorBranch_retry_policy 0 "KeyError: missing_param" (by decide)).1
    ⟨by decide, by decide⟩

/-- C4: on a confirmation response, an affirmative answer (lower-cased
and stripped member of yes/y/confirm/proceed) routes to codegen with the
pending plan installed as the active plan; anything else routes back to
presentation with the action cancelled and no plan installed. -/
theorem supervisorConfirmBranch_policy (confirmation_response : String)
    (pending_plan : Option (List (String × PVal)))
    (_hne : confirmation_response ≠ "") :
    (pyStrip (pyLower confirmation_response) ∈ (["yes", "y", "confirm", "proceed"] : List String) →
      supervisorConfirmBranch confirmation_response pending_plan =
        { next_step := "codegen"
        , plan := pending_plan
        , confirmation_approved := Option.some true
        , action_cancelled := Option.none
        , cancellation_reason := Option.none })
  ∧ (pyStrip (pyLower confirmation_response) ∉ (["yes", "y", "confirm", "proceed"] : List String) →
      supervisorConfirmBranch confirmation_response pending_plan =
        { next_step := "presentation_node"
        , plan := Option.none
        , confirmation_approved := Option.none
        , action_cancelled := Option.some true
        , cancellation_reason := Option.some "User declined to proceed with the operation" }) := by
  constructor
  · intro hmem
    simp [supervisorConfirmBranch, hmem]
  · intro hmem
    simp [supervisorConfirmBranch, hmem]

/-- Witness for C4: an affirmative and a negative concrete response. -/
theorem supervisorConfirmBranch_policy_witness :
    supervisorConfirmBranch " Yes " (Option.some [("action", PVal.str "create_bucket")]) =
      { next_step := "codegen"
      , plan := Option.some [("action", PVal.str "create_bucket")]
      , confirmation_approved := Option.some true
      , action_cancelled := Option.none
      , cancellation_reason := Option.none } ∧
    supervisorConfirmBranch "no" (Option.some [("action", PVal.str "create_bucket")]) =
      { next_step := "presentation_node"
      , plan := Option.none
      , confirmation_approved := Option.none
      , action_cancelled := Option.some true
      , cancellation_reason := Option.some "User declined to proceed with the operation" } :=
  ⟨(supervisorConfirmBranch_policy " Yes " (Option.some [("action", PVal.str "create_bucket")])
      (by decide)).1 (by decide),
   (supervisorConfirmBranch_policy "no" (Option.some [("action", PVal.str "create_bucket")])
      (by decide)).2 (by decide)⟩

/-- C2 counterexample: a state entering the supervisor with
`recursion_count = 20` (the default limit) leaves the counter at 20 —
it does not strictly increase on this entry — while the guard routes to
presentation with the diagnostic. -/
theorem supervisorGuard_no_increase_at_limit :
    ¬ ((⟨Option.some 20, Option.none⟩ : GuardState).recursion_count.getD 0 <
        (supervisorGuard ⟨Option.some 20, Option.none⟩).1.recursion_count.getD 0)
  ∧ (supervisorGuard ⟨Option.some 20, Option.none⟩).1.recursion_count = Option.some 20
  ∧ (supervisorGuard ⟨Option.some 20, Option.none⟩).2 =
      GuardOutcome.halt "presentation_node" recursionLimitSummary "chat" := by
  refine ⟨by decide, rfl, rfl⟩

/-- C2 (amended): `recursion_count` strictly increases on every
supervisor entry below the limit; an entry at or above the limit leaves
the state unchanged and routes to presentation with the diagnostic
'maximum processing limit' message. -/
theorem supervisorGuard_policy (s : GuardState) :
    (s.recursion_count.getD 0 < s.max_recursion.getD 20 →
      (supervisorGuard s).1.recursion_count = Option.some (s.recursion_count.getD 0 + 1) ∧
      (supervisorGuard s).2 = GuardOutcome.continue_)
  ∧ (s.max_recursion.getD 20 ≤ s.recursion_count.getD 0 →
      (supervisorGuard s).1 = s ∧
      (supervisorGuard s).2 =
        GuardOutcome.halt "presentation_node" recursionLimitSummary "chat" ∧
      strContains recursionLimitSummary "maximum processing limit" = true) := by
  constructor
  · intro hlt
    have hnot : ¬ (s.recursion_count.getD 0 ≥ s.max_recursion.getD 20) := by omega
    constructor <;> simp [supervisorGuard, hnot]
  · intro hge
    have h : s.recursion_count.getD 0 ≥ s.max_recursion.getD 20 := hge
    refine ⟨?_, ?_, recursionSummary_contains⟩ <;> simp [supervisorGuard, h]

/-- Witness for C2 (amended) at a concrete below-limit and a concrete
at-limit state. -/
theorem supervisorGuard_policy_witness :
    (supervisorGuard ⟨Option.some 5, Option.none⟩).1.recursion_count = Option.some 6
  ∧ (supervisorGuard ⟨Option.some 5, Option.none⟩).2 = GuardOutcome.continue_
  ∧ (supervisorGuard ⟨Option.some 7, Option.some 7⟩).1 = ⟨Option.some 7, Option.some 7⟩ := by
  have h1 := (supervisorGuard_policy ⟨Option.some 5, Option.none⟩).1 (by decide)
  have h2 := (supervisorGuard_policy ⟨Option.some 7, Option.some 7⟩).2 (by decide)
  exact ⟨h1.1.trans (by decide), h1.2, h2.1⟩

/-- C6: every item `_sanitize_results` emits is a dict: SDK objects are
converted with `to_dict` (with the error-dict fallback when `to_dict`
raises), dicts pass through unchanged, and any other value becomes a
`{value, type}` dict. -/
theorem sanitizeResults_all_dicts (results : List PyAny) :
    (∀ x ∈ sanitizeResults results, x.isDict = true)
  ∧ (∀ d, sanitizeItem (PyAny.pdict d) = PyAny.pdict d)
  ∧ (∀ ty d r, sanitizeItem (PyAny.sdk ty (ToDictResult.ok d) r) = PyAny.pdict d)
  ∧ (∀ ty r, sanitizeItem (PyAny.prim ty r) =
      PyAny.pdict [("value", PVal.str r), ("type", PVal.str ty)])
  ∧ (∀ ty m r, sanitizeItem (PyAny.sdk ty (ToDictResult.raised m) r) =
      PyAny.pdict [ ("error", PVal.str ("Failed to sanitize item: " ++ m))
                  , ("original_type", PVal.str ty)
                  , ("value", PVal.str r) ]) := by
  refine ⟨?_, fun d => rfl, fun ty d r => rfl, fun ty r => rfl, fun ty m r => rfl⟩
  intro x hx
  rw [sanitizeResults, List.mem_map] at hx
  obtain ⟨y, -, rfl⟩ := hx
  cases y with
  | pdict d => rfl
  | sdk ty conv r => cases conv <;> rfl
  | prim ty r => rfl

/-- Witness for C6 on a concrete mixed result list. -/
theorem sanitizeResults_all_dicts_witness :
    (PyAny.pdict [("value", PVal.str "5"), ("type", PVal.str "int")]).isDict = true :=
  (sanitizeResults_all_dicts [PyAny.prim "int" "5"]).1
    (PyAny.pdict [("value", PVal.str "5"), ("type", PVal.str "int")]) (by decide)

/-- C8 counterexample: the short-term save trace truncates the target
file in place, so the interruption point right after `open(path, 'w')`
leaves a file that is neither the old content nor the new content —
the write is not atomic. -/
theorem save_short_term_not_atomic :
    ([FsOp.openTrunc "memory/short_term.json"] <+: save_short_term_trace "new-content")
  ∧ runFs (fun _ => "old-content") [FsOp.openTrunc "memory/short_term.json"]
      "memory/short_term.json" = ""
  ∧ ("" : String) ≠ "old-content"
  ∧ ("" : String) ≠ "new-content" := by
  refine ⟨⟨[ FsOp.writeAll "memory/short_term.json" "new-content"
           , FsOp.closeFile "memory/short_term.json" ], rfl⟩, ?_, by decide, by decide⟩
  simp [runFs, applyFsOp]

/-- C8 (amended): a save writes the serialised JSON directly to the
final path — a completed save leaves exactly the new content, but the
trace contains no rename (and no temporary file), so it is not the
write-temp-then-rename pattern and interruption can leave a partial
file. -/
theorem save_traces_direct_write (serialized : String) (fs : String → String) :
    runFs fs (save_short_term_trace serialized) "memory/short_term.json" = serialized
  ∧ runFs fs (save_long_term_trace serialized) "memory/long_term.json" = serialized
  ∧ (save_short_term_trace serialized).all (fun op => !op.isRename) = true
  ∧ (save_long_term_trace serialized).all (fun op => !op.isRename) = true := by
  refine ⟨?_, ?_, by simp [save_short_term_trace, FsOp.isRename],
    by simp [save_long_term_trace, FsOp.isRename]⟩ <;>
    simp [save_short_term_trace, save_long_term_trace, runFs, applyFsOp,
      String.empty_append]

/-- C9: `learn_from_pattern` appends a fresh entry with frequency 1
when no stored pattern is similar to the payload; when some stored
pattern is similar, the first such entry gets its frequency incremented
and `last_seen` updated, and nothing is appended (the list keeps its
length and all other entries). -/
theorem learnFromPattern_merge_policy (d : List (String × PVal)) (now : String)
    (ps : List PatternEntry) :
    ((∀ e ∈ ps, patternsSimilar e.data d = false) →
      learnFromPattern d now ps = ps ++ [⟨d, now, 1, Option.none⟩])
  ∧ (∀ pre e suf, ps = pre ++ e :: suf →
      (∀ x ∈ pre, patternsSimilar x.data d = false) →
      patternsSimilar e.data d = true →
      learnFromPattern d now ps =
        pre ++ { e with frequency := e.frequency + 1, last_seen := Option.some now } :: suf) := by
  constructor
  · intro hall
    induction ps with
    | nil => rfl
    | cons e rest ih =>
      have he : patternsSimilar e.data d = false := hall e (by simp)
      simp only [learnFromPattern, he, Bool.false_eq_true, if_neg, not_false_eq_true,
        List.cons_append]
      rw [ih (fun x hx => hall x (by simp [hx]))]
  · intro pre e suf hps hpre hsim
    subst hps
    induction pre with
    | nil => simp [learnFromPattern, hsim]
    | cons x pre ih =>
      have hx : patternsSimilar x.data d = false := hpre x (by simp)
      simp only [learnFromPattern, hx, Bool.false_eq_true, if_neg, not_false_eq_true,
        List.cons_append, List.cons.injEq, true_and]
      exact ih (fun y hy => hpre y (by simp [hy]))

/-- Witness for C9: merging into a concrete similar stored pattern, and
appending after a concrete dissimilar one. -/
theorem learnFromPattern_merge_policy_witness :
    learnFromPattern [("k", PVal.int 1)] "t1"
        [⟨[("k", PVal.int 1)], "t0", 1, Option.none⟩] =
      [⟨[("k", PVal.int 1)], "t0", 2, Option.some "t1"⟩]
  ∧ learnFromPattern [("k", PVal.int 1)] "t1"
        [⟨[("j", PVal.int 2)], "t0", 1, Option.none⟩] =
      [⟨[("j", PVal.int 2)], "t0", 1, Option.none⟩, ⟨[("k", PVal.int 1)], "t1", 1, Option.none⟩] := by
  constructor
  · have h := (learnFromPattern_merge_policy [("k", PVal.int 1)] "t1"
        [⟨[("k", PVal.int 1)], "t0", 1, Option.none⟩]).2
        [] ⟨[("k", PVal.int 1)], "t0", 1, Option.none⟩ [] rfl (by simp) (by decide)
    simpa using h
  · have h := (learnFromPattern_merge_policy [("k", PVal.int 1)] "t1"
        [⟨[("j", PVal.int 2)], "t0", 1, Option.none⟩]).1 (by decide)
    simpa using h

/-- C7 counterexample: on a concrete retrieval hit the node routes to
presentation but tags the result with `execution_strategy = "rag_chain"`,
not `"retrieval_chain"` as the claim states. -/
theorem ragRetrieverNode_strategy_name :
    (ragRetrieverNode ⟨true, Option.some [Doc.str "doc body"], Option.some []⟩
        ⟨Option.none, Option.none⟩).next_step = "presentation_node"
  ∧ (ragRetrieverNode ⟨true, Option.some [Doc.str "doc body"], Option.some []⟩
        ⟨Option.none, Option.none⟩).execution_strategy = "rag_chain"
  ∧ (ragRetrieverNode ⟨true, Option.some [Doc.str "doc body"], Option.some []⟩
        ⟨Option.none, Option.none⟩).execution_strategy ≠ "retrieval_chain" := by
  refine ⟨?_, ?_, ?_⟩ <;> decide

/-- C7 (amended): the node's routing is decided by whether retrieval
reported a hit and some retrieved document is a non-blank string; a hit
routes to presentation with `execution_strategy="rag_chain"` and
`execution_result={data, metadatas}`; a miss routes to the planner with
`execution_strategy="rag_fallback_to_planner"`, preserving
`normalized_query` with fallback to `user_input`. -/
theorem ragRetrieverNode_routing (results : RetrieveResults) (state : RagState) :
    (ragHasData results.rag_found
        (if results.rag_found then results.rag_result.getD [] else []) = true →
      (ragRetrieverNode results state).next_step = "presentation_node" ∧
      (ragRetrieverNode results state).execution_strategy = "rag_chain" ∧
      (ragRetrieverNode results state).execution_result =
        Option.some ((if results.rag_found then results.rag_result.getD [] else []),
          (if results.rag_found then results.rag_metadata.getD [] else [])))
  ∧ (ragHasData results.rag_found
        (if results.rag_found then results.rag_result.getD [] else []) = false →
      (ragRetrieverNode results state).next_step = "planner" ∧
      (ragRetrieverNode results state).execution_strategy = "rag_fallback_to_planner" ∧
      (ragRetrieverNode results state).execution_result = Option.none ∧
      (ragRetrieverNode results state).rag_fallback = Option.some true ∧
      (ragRetrieverNode results state).normalized_query =
        Option.some (state.normalized_query.getD (state.user_input.getD "")))
  ∧ (ragHasData results.rag_found
        (if results.rag_found then results.rag_result.getD [] else []) = true ↔
      results.rag_found = true ∧
        ∃ s, Doc.str s ∈ (if results.rag_found then results.rag_result.getD [] else []) ∧
          pyStrip s ≠ "") := by
  refine ⟨?_, ?_, ?_⟩
  · intro h
    refine ⟨?_, ?_, ?_⟩ <;> simp [ragRetrieverNode, h]
  · intro h
    refine ⟨?_, ?_, ?_, ?_, ?_⟩ <;> simp [ragRetrieverNode, h]
  · unfold ragHasData
    constructor
    · intro h
      simp only [Bool.and_eq_true, List.any_eq_true] at h
      obtain ⟨⟨hfound, -⟩, doc, hmem, hdoc⟩ := h
      refine ⟨hfound, ?_⟩
      cases doc with
      | str s => exact ⟨s, hmem, by simpa using hdoc⟩
      | other => cases hdoc
    · rintro ⟨hfound, s, hmem, hs⟩
      have hne : (if results.rag_found = true then results.rag_result.getD [] else []).isEmpty = false := by
        cases hl : (if results.rag_found = true then results.rag_result.getD [] else []) with
        | nil => rw [hl] at hmem; cases hmem
        | cons a t => rfl
      simp only [Bool.and_eq_true, List.any_eq_true]
      exact ⟨⟨hfound, by simp [hne]⟩, Doc.str s, hmem, by simpa using hs⟩

/-- Witness for C7 at a concrete hit and a concrete miss. -/
theorem ragRetrieverNode_routing_witness :
    (ragRetrieverNode ⟨true, Option.some [Doc.str "body"], Option.none⟩
        ⟨Option.none, Option.none⟩).execution_strategy = "rag_chain"
  ∧ (ragRetrieverNode ⟨false, Option.none, Option.none⟩
        ⟨Option.some "q", Option.none⟩).next_step = "planner"
  ∧ (ragRetrieverNode ⟨false, Option.none, Option.none⟩
        ⟨Option.some "q", Option.none⟩).normalized_query = Option.some "q" := by
  have h1 := (ragRetrieverNode_routing ⟨true, Option.some [Doc.str "body"], Option.none⟩
      ⟨Option.none, Option.none⟩).1 (by decide)
  have h2 := (ragRetrieverNode_routing ⟨false, Option.none, Option.none⟩
      ⟨Option.some "q", Option.none⟩).2.1 (by decide)
  exact ⟨h1.2.1, h2.1, h2.2.2.2.2⟩

/-- C5 counterexample: a plan carrying both a top-level `list_` action
and a `steps` list takes only the top-level branch of
`_enforce_all_compartments` (the `elif` skips the step loop), so its
`list_` step is emitted without `all_compartments`. -/
theorem enforceAllCompartments_skips_steps :
    (enforceAllCompartments
        ⟨Option.some (PVal.str "list_instances"), Option.some [],
          Option.some [⟨Option.some (PVal.str "list_vcns"), Option.some []⟩]⟩).steps =
      Option.some [⟨Option.some (PVal.str "list_vcns"), Option.some []⟩]
  ∧ isListAction (Option.some (PVal.str "list_vcns")) = true
  ∧ hasAllCompartments (Option.some ([] : List (String × PVal))) = false := by
  refine ⟨?_, ?_, ?_⟩ <;> decide

/-- C5 (amended): `_enforce_all_compartments` leaves the action intact
and guarantees a truthy `all_compartments` for a top-level `list_`
action, and for every `list_` step of a plan whose top-level action is
not itself a `list_`-prefixed string. -/
theorem enforceAllCompartments_policy (p : EPlan) :
    ((enforceAllCompartments p).action = p.action)
  ∧ (isListAction p.action = true →
      hasAllCompartments (enforceAllCompartments p).params = true)
  ∧ (isListAction p.action = false →
      ∀ st ∈ (enforceAllCompartments p).steps.getD [],
        isListAction st.action = true → hasAllCompartments st.params = true) := by
  refine ⟨?_, ?_, ?_⟩
  · unfold enforceAllCompartments
    by_cases h : isListAction p.action = true
    · rw [if_pos h]
      by_cases ht : ((dictGet (p.params.getD []) "all_compartments").getD (PVal.bool false)).truthy = true
      · simp only [ht, if_pos]
      · simp only [ht, Bool.false_eq_true, not_false_eq_true, if_neg]
    · rw [if_neg h]
      by_cases hs : p.steps.isSome = true
      · rw [if_pos hs]
      · rw [if_neg hs]
  · intro h
    unfold enforceAllCompartments
    rw [if_pos h]
    by_cases ht : ((dictGet (p.params.getD []) "all_compartments").getD (PVal.bool false)).truthy = true
    · simp only [ht, if_pos]
      simpa [hasAllCompartments] using ht
    · simp only [ht, Bool.false_eq_true, not_false_eq_true, if_neg]
      simp [hasAllCompartments, dictGet_dictSet_self, PVal.truthy]
  · intro h st hst hlist
    unfold enforceAllCompartments at hst
    rw [if_neg (by simp [h]), ] at hst
    by_cases hs : p.steps.isSome = true
    · rw [if_pos hs] at hst
      simp only [Option.getD_some] at hst
      rw [List.mem_map] at hst
      obtain ⟨st0, -, rfl⟩ := hst
      rw [enforceStep_action] at hlist
      exact enforceStep_flag st0 hlist
    · rw [if_neg hs] at hst
      have : p.steps = Option.none := Option.not_isSome_iff_eq_none.mp (by simpa using hs)
      rw [this] at hst
      cases hst

/-- Witness for C5 (amended): top-level enforcement and step
enforcement at concrete plans. -/
theorem enforceAllCompartments_policy_witness :
    hasAllCompartments
      (enforceAllCompartments ⟨Option.some (PVal.str "list_buckets"), Option.none, Option.none⟩).params = true
  ∧ hasAllCompartments (Option.some [("all_compartments", PVal.bool true)]) = true := by
  constructor
  · exact (enforceAllCompartments_policy
      ⟨Option.some (PVal.str "list_buckets"), Option.none, Option.none⟩).2.1 (by decide)
  · exact (enforceAllCompartments_policy
      ⟨Option.none, Option.none,
        Option.some [⟨Option.some (PVal.str "list_buckets"), Option.none⟩]⟩).2.2 (by decide)
      ⟨Option.some (PVal.str "list_buckets"), Option.some [("all_compartments", PVal.bool true)]⟩
      (by decide) (by decide)

set_option maxHeartbeats 1000000 in
theorem knownAction_startswith_mutating (a : String) (req : List String)
    (h : knownRequiredParams a = Option.some req) :
    mutatingPrefixes.any (fun p => pyStartsWith a p) = true := by
  unfold knownRequiredParams at h
  split_ifs at h with h1 h2 h3 h4 h5 h6 h7 h8 h9 h10
  · subst h1; decide
  · subst h2; decide
  · subst h3; decide
  · subst h4; decide
  · subst h5; decide
  · subst h6; decide
  · subst h7; decide
  · subst h8; decide
  · subst h9; decide
  · subst h10; decide

/-- C1: for a plan whose action is in the known destructive-action
table, `_apply_safety_flags` sets `missing_parameters` to exactly the
declared required parameters that are absent, `None`, or blank in the
emitted plan's params — regardless of the `missing_parameters` list the
LM wrote into the plan. -/
theorem applySafetyFlags_missing_parameters (plan : Plan) (analysis : AnalysisResult)
    (req : List String) (h : knownRequiredParams plan.action = Option.some req) :
    (applySafetyFlags plan analysis).missing_parameters =
      Option.some (req.filter
        (fun p => paramMissing (applySafetyFlags plan analysis).params p)) := by
  have hmut : planIsMutating plan.action analysis = true := by
    unfold planIsMutating
    rw [knownAction_startswith_mutating plan.action req h, Bool.or_true]
  unfold applySafetyFlags
  rw [h]
  simp [hmut]

/-- Witness for C1: a concrete `create_bucket` plan with one parameter
present and the LM claiming a wrong missing list; the emitted list is
the programmatic one. -/
theorem applySafetyFlags_missing_parameters_witness :
    (applySafetyFlags
        ⟨"create_bucket", [("compartment_id", PVal.str "ocid1.compartment.oc1..x")],
          Option.some ["display_name"], Option.none, Option.none⟩
        ⟨false, []⟩).missing_parameters = Option.some ["name"] := by
  have h := applySafetyFlags_missing_parameters
    ⟨"create_bucket", [("compartment_id", PVal.str "ocid1.compartment.oc1..x")],
      Option.some ["display_name"], Option.none, Option.none⟩
    ⟨false, []⟩ ["compartment_id", "name"] (by decide)
  rw [h]
  decide

end OciCopilot
